import Mathlib

/-!
Verification development for the `audio-detect` service (`src/main.py`).

The single endpoint `identify_audio` downloads an audio file, transcodes it,
submits it to a fingerprint service with a signed request, and normalizes the
upstream JSON response into a ranked list of canonical match records.

This file embeds the pure core of that pipeline:
 * the response data model and the per-candidate normalization
   (lines 68–130 of `main.py`),
 * `format_ms` (lines 138–142),
 * the request-signature construction (lines 45–47), including full
   HMAC-SHA1 and base64,
 * the overlap-percentage computation (lines 90–95), modelled with exact
   IEEE-754 binary64 rounding because the Python source computes
   `math.ceil((match_duration / total_duration_ms) * 100)` in doubles,
 * the scratch-file lifecycle (download / transcode / cleanup paths) as an
   explicit state machine over the two temp-file names.

Numbers from the JSON body are modelled as integers (`ℤ`), absent JSON keys
as `Option.none`, and Python exceptions as `Except String`.
-/

namespace AudioDetect

/-- One entry of a candidate's `artists` list; `a['name']` raises `KeyError`
when the key is absent, hence the `Option`. -/
structure RawArtist where
  name : Option String
deriving Repr, DecidableEq

/-- `{'track': {'id': ...}}` leaf of the external-metadata blocks. -/
structure TrackRef where
  id : Option String
deriving Repr, DecidableEq

/-- `external_metadata.spotify` / `.deezer` block: `{'track': {...}}`. -/
structure TrackBlock where
  track : Option TrackRef
deriving Repr, DecidableEq

/-- `external_metadata.youtube` block: `{'vid': ...}`. -/
structure YoutubeBlock where
  vid : Option String
deriving Repr, DecidableEq

/-- `m.get('external_metadata', {})` sub-object. -/
structure ExternalMetadata where
  spotify : Option TrackBlock
  deezer : Option TrackBlock
  youtube : Option YoutubeBlock
deriving Repr, DecidableEq

/-- `m.get('external_ids', {})` sub-object. -/
structure ExternalIds where
  isrc : Option String
deriving Repr, DecidableEq

/-- One raw candidate record from `metadata.music` / `custom_files` /
`humming`.  `artists` uses the code's default `[]` for an absent key
(`m.get('artists', [])`), so the absent case is the empty list. -/
structure RawMatch where
  title : Option String
  artists : List RawArtist
  score : Option ℤ
  sample_begin_time_offset_ms : Option ℤ
  sample_end_time_offset_ms : Option ℤ
  duration_ms : Option ℤ
  release_date : Option String
  label : Option String
  acrid : Option String
  external_ids : Option ExternalIds
  external_metadata : Option ExternalMetadata
deriving Repr, DecidableEq

/-- The parsed upstream JSON body, restricted to the keys `identify_audio`
reads: `response.get('status', {}).get('code')` and the three category lists
under `metadata` (each defaulting to `[]` when absent). -/
structure UpstreamResponse where
  status_code : Option ℤ
  music : List RawMatch
  custom_files : List RawMatch
  humming : List RawMatch
deriving Repr, DecidableEq

/-- The normalized per-match record appended to `final_matches`
(lines 111–127), fields in the code's key order. -/
structure CanonicalMatch where
  title : Option String
  artist : String
  type : String
  release_date : String
  time_range : String
  match_score : String
  overlap_percentage : String
  isrc : String
  label : String
  spotify_id : Option String
  deezer_id : Option String
  youtube_id : Option String
  acrid : Option String
deriving Repr, DecidableEq

/-- The endpoint's success payload `{"status": status, "data": final_matches}`. -/
structure IdentificationResult where
  status : String
  data : List CanonicalMatch
deriving Repr, DecidableEq

/-- Decidable equality for `Except`, so concrete runs of the fallible
pipeline can be settled by `decide`. -/
instance instDecEqExcept {ε α : Type} [DecidableEq ε] [DecidableEq α] :
    DecidableEq (Except ε α)
  | .error e, .error f =>
    if h : e = f then .isTrue (by rw [h])
    else .isFalse (by intro hh; cases hh; exact h rfl)
  | .error _, .ok _ => .isFalse (by intro hh; cases hh)
  | .ok _, .error _ => .isFalse (by intro hh; cases hh)
  | .ok a, .ok b =>
    if h : a = b then .isTrue (by rw [h])
    else .isFalse (by intro hh; cases hh; exact h rfl)

/-! ## `format_ms` (lines 138–142)

```python
def format_ms(ms):
    if not ms: return "00:00"
    seconds = int((ms / 1000) % 60)
    minutes = int((ms / (1000 * 60)) % 60)
    return f"{minutes:02d}:{seconds:02d}"
```

The Python body divides in binary64 and truncates `(ms/1000) % 60` with
`int`.  For an integer `ms` with `|ms| < 2^45` the double `ms/1000` is within
`1/1000` of the exact quotient and never crosses an integer boundary, so
`int((ms/1000) % 60) = (⌊ms/1000⌋) mod 60` exactly; we embed that exact form
(floor division `Int.fdiv`, non-negative remainder `Int.emod`, matching
Python's `%` on the non-negative mod-60 result). -/

/-- Python `f"{n:02d}"` for the non-negative `mod 60` values used here. -/
def pad2 (n : ℤ) : String :=
  if n < 10 then "0" ++ toString n else toString n

/-- `format_ms`; `none` models Python `None` (falsy, like `0`). -/
def format_ms (ms : Option ℤ) : String :=
  if ms.getD 0 = 0 then "00:00"
  else
    let v := ms.getD 0
    let seconds := (v.fdiv 1000).emod 60
    let minutes := (v.fdiv (1000 * 60)).emod 60
    pad2 minutes ++ ":" ++ pad2 seconds

/-! ## Match-type classification (lines 97–104) -/

/-- ```python
score = m.get('score', 0)
if score >= 90:   match_type = "Exact Match"
elif score >= 40: match_type = "Remix/Sample"
else:             match_type = "Low Confidence"
``` -/
def matchType (score : ℤ) : String :=
  if 90 ≤ score then "Exact Match"
  else if 40 ≤ score then "Remix/Sample"
  else "Low Confidence"

/-! ## Binary64 model for the overlap computation (lines 90–95)

```python
match_duration = end_ms - start_ms
if total_duration_ms > 0:
    overlap_pct = math.ceil((match_duration / total_duration_ms) * 100)
else:
    overlap_pct = 0
```

Both `/` and `*` are IEEE-754 binary64 operations (round to nearest, ties to
even, 53-bit significand).  A finite double is represented as a sign, a
natural magnitude and a power-of-two scale, and each operation as the exact
result rounded to 53 significant bits.  Exponent range is not modelled (no
overflow/underflow): every quantity reachable from millisecond inputs of
realistic magnitude is a normal double. -/

/-- Round `num/den` to the nearest integer, ties to even. -/
def roundNearestEven (num den : ℕ) : ℕ :=
  let q := num / den
  let r := num % den
  if 2 * r < den then q
  else if den < 2 * r then q + 1
  else if q % 2 = 0 then q else q + 1

/-- Whether `na/nb ≥ 2^e` (for `na, nb ≥ 1`), by integer comparison. -/
def geTwoPow (na nb : ℕ) (e : ℤ) : Bool :=
  if 0 ≤ e then decide (nb * 2 ^ e.toNat ≤ na)
  else decide (nb ≤ na * 2 ^ (-e).toNat)

/-- Fuel-driven helper for `floorLog2` (structural recursion so that
concrete values reduce in the kernel). -/
def floorLog2Aux (fuel n : ℕ) : ℕ :=
  match fuel with
  | 0 => 0
  | f + 1 => if n ≤ 1 then 0 else floorLog2Aux f (n / 2) + 1

/-- `⌊log₂ n⌋` (and `0` at `0`): fuel `n` always suffices since the
recursion halves `n` each step. -/
def floorLog2 (n : ℕ) : ℕ :=
  floorLog2Aux n n

/-- The binade of `na/nb` (for `na, nb ≥ 1`): the unique `e` with
`2^e ≤ na/nb < 2^(e+1)`, located from the bit lengths and corrected by one
comparison. -/
def ratBinade (na nb : ℕ) : ℤ :=
  let e0 : ℤ := (floorLog2 na : ℤ) - (floorLog2 nb : ℤ)
  if geTwoPow na nb e0 then e0 else e0 - 1

/-- A finite binary64 value, denoting `(-1)^neg * mag * 2^ex` (not kept in
canonical form; the denoted value is what matters). -/
structure F64 where
  neg : Bool
  mag : ℕ
  ex : ℤ
deriving Repr, DecidableEq

/-- Python's true division `a / b` on integers: the correctly rounded
binary64 quotient (integers of this size are exact doubles).  `b = 0` would
raise `ZeroDivisionError`; the call below is guarded by
`total_duration_ms > 0`, so that branch is junk. -/
def floatDiv (a b : ℤ) : F64 :=
  if a = 0 ∨ b = 0 then ⟨false, 0, 0⟩
  else
    let na := a.natAbs
    let nb := b.natAbs
    let e := ratBinade na nb
    let s := 52 - e
    let num := na * 2 ^ (max s 0).toNat
    let den := nb * 2 ^ (max (-s) 0).toNat
    ⟨xor (decide (a < 0)) (decide (b < 0)), roundNearestEven num den, e - 52⟩

/-- Binary64 product `x * 100` (`100` is exact): the exact magnitude
`100 * mag`, re-rounded to 53 significant bits when it got wider. -/
def floatMul100 (x : F64) : F64 :=
  let na := 100 * x.mag
  if na < 2 ^ 53 then ⟨x.neg, na, x.ex⟩
  else
    let sh := floorLog2 na - 52
    ⟨x.neg, roundNearestEven na (2 ^ sh), x.ex + sh⟩

/-- `math.ceil` of a double: the exact integer ceiling of the denoted value
(`⌈-(m/2^k)⌉ = -⌊m/2^k⌋`, and `⌈m/2^k⌉ = ⌊(m + 2^k - 1)/2^k⌋` on naturals). -/
def F64.ceil (x : F64) : ℤ :=
  if 0 ≤ x.ex then
    let v : ℤ := (x.mag : ℤ) * 2 ^ x.ex.toNat
    if x.neg then -v else v
  else
    let k := (-x.ex).toNat
    if x.neg then -((x.mag / 2 ^ k : ℕ) : ℤ)
    else (((x.mag + 2 ^ k - 1) / 2 ^ k : ℕ) : ℤ)

/-- Lines 92–95: `math.ceil((match_duration / total_duration_ms) * 100)`
when `total_duration_ms > 0`, else `0`. -/
def overlapPct (total_duration_ms : ℕ) (match_duration : ℤ) : ℤ :=
  if 0 < total_duration_ms then
    F64.ceil (floatMul100 (floatDiv match_duration (total_duration_ms : ℤ)))
  else 0

/-- `⌈a/d⌉` for `d > 0`, as `-((-a) fdiv d)`. -/
def ceilDivInt (a d : ℤ) : ℤ :=
  -((-a).fdiv d)

/-- The exact-arithmetic overlap the spec describes:
`ceiling(100 * match_duration / totalDurationMs)` with no intermediate
rounding. -/
def overlapPctExact (total_duration_ms : ℕ) (match_duration : ℤ) : ℤ :=
  if 0 < total_duration_ms then
    ceilDivInt (100 * match_duration) (total_duration_ms : ℤ)
  else 0

/-! ## Per-candidate normalization (lines 83–127) -/

/-- Line 87: `start_ms = m.get('sample_begin_time_offset_ms', 0)`. -/
def startMs (m : RawMatch) : ℤ :=
  m.sample_begin_time_offset_ms.getD 0

/-- Line 88:
`end_ms = m.get('sample_end_time_offset_ms', start_ms + m.get('duration_ms', 0))`. -/
def endMs (m : RawMatch) : ℤ :=
  m.sample_end_time_offset_ms.getD (startMs m + m.duration_ms.getD 0)

/-- The list comprehension `[a['name'] for a in ...]`: evaluates left to
right and raises `KeyError('name')` (whose `str` is `"'name'"`) at the first
artist lacking the key. -/
def collectNames : List RawArtist → Except String (List String)
  | [] => .ok []
  | a :: rest =>
    match a.name with
    | none => .error "'name'"
    | some n =>
      match collectNames rest with
      | .error e => .error e
      | .ok ns => .ok (n :: ns)

/-- Line 113: `", ".join([a['name'] for a in m.get('artists', [])])`. -/
def artistField (artists : List RawArtist) : Except String String :=
  match collectNames artists with
  | .error e => .error e
  | .ok ns => .ok (String.intercalate ", " ns)

/-- Line 107: `m.get('external_metadata', {}).get('spotify', {}).get('track', {})`
then `.get('id', None)` — an absent block at any level yields `None`. -/
def spotifyId (m : RawMatch) : Option String :=
  ((m.external_metadata.bind ExternalMetadata.spotify).bind
    TrackBlock.track).bind TrackRef.id

/-- Line 108, as `spotifyId` but for the `deezer` block. -/
def deezerId (m : RawMatch) : Option String :=
  ((m.external_metadata.bind ExternalMetadata.deezer).bind
    TrackBlock.track).bind TrackRef.id

/-- Line 109/124: `m.get('external_metadata', {}).get('youtube', {})` then
`.get('vid', None)`. -/
def youtubeId (m : RawMatch) : Option String :=
  (m.external_metadata.bind ExternalMetadata.youtube).bind YoutubeBlock.vid

/-- Line 120: `m.get('external_ids', {}).get('isrc', 'N/A')`. -/
def isrcField (m : RawMatch) : String :=
  match m.external_ids with
  | none => "N/A"
  | some e => e.isrc.getD "N/A"

/-- Lines 83–127: the body of the `for m in all_hits` loop for one raw
candidate.  The only statement in it that can raise is the artist-name
comprehension, so the result is `Except` with that error. -/
def normalizeMatch (total_duration_ms : ℕ) (m : RawMatch) :
    Except String CanonicalMatch :=
  let start_ms := startMs m
  let end_ms := endMs m
  let match_duration := end_ms - start_ms
  let overlap_pct := overlapPct total_duration_ms match_duration
  let score := m.score.getD 0
  let match_type := matchType score
  match artistField m.artists with
  | .error e => .error e
  | .ok artist =>
    .ok
      { title := m.title
        artist := artist
        type := match_type
        release_date := m.release_date.getD "Unknown"
        time_range := "[" ++ format_ms (some start_ms) ++ " -> " ++
          format_ms (some end_ms) ++ "]"
        match_score := toString score ++ "%"
        overlap_percentage := toString overlap_pct ++ "%"
        isrc := isrcField m
        label := m.label.getD "Unknown"
        spotify_id := spotifyId m
        deezer_id := deezerId m
        youtube_id := youtubeId m
        acrid := m.acrid }

/-- Lines 77–81: `all_hits = metadata.get('music', []) +
metadata.get('custom_files', []) + metadata.get('humming', [])`. -/
def allHits (resp : UpstreamResponse) : List RawMatch :=
  resp.music ++ resp.custom_files ++ resp.humming

/-- The `for m in all_hits: ... final_matches.append({...})` loop with its
accumulator; an exception in any iteration aborts the whole loop. -/
def matchLoop (total_duration_ms : ℕ) (acc : List CanonicalMatch) :
    List RawMatch → Except String (List CanonicalMatch)
  | [] => .ok acc
  | m :: rest =>
    match normalizeMatch total_duration_ms m with
    | .error e => .error e
    | .ok c => matchLoop total_duration_ms (acc ++ [c]) rest

/-- Lines 68–130: parse the upstream response.  `status` starts as
`"no_match"`; only `response.get('status', {}).get('code') == 0` switches it
to `"matched"` and runs the candidate loop.  `.error` models a Python
exception escaping to the `except` handler. -/
def parseResponse (resp : UpstreamResponse) (total_duration_ms : ℕ) :
    Except String IdentificationResult :=
  if resp.status_code = some 0 then
    match matchLoop total_duration_ms [] (allHits resp) with
    | .error e => .error e
    | .ok ms => .ok { status := "matched", data := ms }
  else
    .ok { status := "no_match", data := [] }

/-- Lines 130–136: the HTTP status the endpoint answers with — `200` on a
normal return, `500` (`HTTPException(status_code=500, detail=str(e))`) when
an exception reached the handler. -/
def httpStatus (r : Except String IdentificationResult) : ℕ :=
  match r with
  | .ok _ => 200
  | .error _ => 500

/-- The `detail` string of a `500` reply: `str(e)`. -/
def httpDetail (r : Except String IdentificationResult) : Option String :=
  match r with
  | .ok _ => none
  | .error e => some e

/-- The dictionary keys of the record built at lines 111–127, in source
order. -/
def codeMatchFields : List String :=
  ["title", "artist", "type", "release_date", "time_range", "match_score",
   "overlap_percentage", "isrc", "label", "spotify_id", "deezer_id",
   "youtube_id", "acrid"]

/-- Modelled from the spec: the field list of the CanonicalMatch record as
§3 of the design document enumerates it (`title`, `artist`, `type`,
`release_date`, `time_range`, `match_score`, `overlap_percentage`, `isrc`,
`label`, and the per-platform external IDs).  Used only to compare the
specified schema with the record the code builds. -/
def specMatchFields : List String :=
  ["title", "artist", "type", "release_date", "time_range", "match_score",
   "overlap_percentage", "isrc", "label", "spotify_id", "deezer_id",
   "youtube_id"]

/-- Straight-line element-wise normalization (no accumulator): the shape the
order-preservation theorem compares the loop against. -/
def normalizeAll (total_duration_ms : ℕ) :
    List RawMatch → Except String (List CanonicalMatch)
  | [] => .ok []
  | m :: rest =>
    match normalizeMatch total_duration_ms m with
    | .error e => .error e
    | .ok c =>
      match normalizeAll total_duration_ms rest with
      | .error e => .error e
      | .ok cs => .ok (c :: cs)

/-! ## Request signature (lines 45–47)

```python
string_to_sign = f"POST\n/v1/identify\n{req.acr_access_key}\naudio\n1\n{str(int(timestamp))}"
sign = base64.b64encode(hmac.new(req.acr_access_secret.encode('ascii'),
    string_to_sign.encode('ascii'), digestmod=hashlib.sha1).digest()).decode('ascii')
```

SHA-1, HMAC and base64 are embedded in full over byte lists (`List ℕ`, each
element `< 256`), with 32-bit words as `ℕ` reduced `% 2^32`. -/

/-- Left-rotate a 32-bit word by `n`. -/
def rotl32 (n w : ℕ) : ℕ :=
  ((w <<< n) ||| (w >>> (32 - n))) % 2 ^ 32

/-- SHA-1 padding: `0x80`, zeros to 56 mod 64, then the 64-bit big-endian
bit length. -/
def sha1pad (msg : List ℕ) : List ℕ :=
  let L := msg.length
  let zeros := (119 - L % 64) % 64
  msg ++ [0x80] ++ List.replicate zeros 0 ++
    ([56, 48, 40, 32, 24, 16, 8, 0].map fun s => ((8 * L) >>> s) % 256)

/-- Big-endian 32-bit words from bytes. -/
def bytesToWords : List ℕ → List ℕ
  | b0 :: b1 :: b2 :: b3 :: rest =>
    (((b0 <<< 8 ||| b1) <<< 8 ||| b2) <<< 8 ||| b3) :: bytesToWords rest
  | _ => []

/-- Extend 16 schedule words to 80:
`w[i] = rotl1(w[i-3] ^ w[i-8] ^ w[i-14] ^ w[i-16])`. -/
def sha1schedule (ws : List ℕ) : List ℕ :=
  (List.range 64).foldl
    (fun ws j =>
      ws ++ [rotl32 1 ((((ws.getD (j + 13) 0) ^^^ ws.getD (j + 8) 0) ^^^
        ws.getD (j + 2) 0) ^^^ ws.getD j 0)])
    ws

/-- The round function and constant for round `i`. -/
def sha1fk (i b c d : ℕ) : ℕ × ℕ :=
  if i < 20 then ((b &&& c) ||| ((b ^^^ 0xffffffff) &&& d), 0x5A827999)
  else if i < 40 then ((b ^^^ c) ^^^ d, 0x6ED9EBA1)
  else if i < 60 then ((b &&& c) ||| (b &&& d) ||| (c &&& d), 0x8F1BBCDC)
  else ((b ^^^ c) ^^^ d, 0xCA62C1D6)

/-- Compress one 64-byte block into the running state. -/
def sha1block (h : ℕ × ℕ × ℕ × ℕ × ℕ) (block : List ℕ) :
    ℕ × ℕ × ℕ × ℕ × ℕ :=
  let w := sha1schedule (bytesToWords block)
  let (h0, h1, h2, h3, h4) := h
  let s := (List.range 80).foldl
    (fun st i =>
      let (a, b, c, d, e) := st
      let (f, k) := sha1fk i b c d
      ((rotl32 5 a + f + e + k + w.getD i 0) % 2 ^ 32, a, rotl32 30 b, c, d))
    (h0, h1, h2, h3, h4)
  ((h0 + s.1) % 2 ^ 32, (h1 + s.2.1) % 2 ^ 32, (h2 + s.2.2.1) % 2 ^ 32,
   (h3 + s.2.2.2.1) % 2 ^ 32, (h4 + s.2.2.2.2) % 2 ^ 32)

/-- Split into 64-byte blocks; `fuel` bounds the recursion (any
`fuel ≥ ⌈length/64⌉` gives the full chunking). -/
def chunk64 (fuel : ℕ) (l : List ℕ) : List (List ℕ) :=
  match fuel with
  | 0 => []
  | fuel + 1 =>
    match l with
    | [] => []
    | _ => l.take 64 :: chunk64 fuel (l.drop 64)

/-- A 32-bit word as 4 big-endian bytes. -/
def wordBytes (w : ℕ) : List ℕ :=
  [(w >>> 24) % 256, (w >>> 16) % 256, (w >>> 8) % 256, w % 256]

/-- SHA-1 of a byte list: the 20-byte digest. -/
def sha1 (msg : List ℕ) : List ℕ :=
  let padded := sha1pad msg
  let (h0, h1, h2, h3, h4) :=
    (chunk64 (padded.length) padded).foldl sha1block
      (0x67452301, 0xEFCDAB89, 0x98BADCFE, 0x10325476, 0xC3D2E1F0)
  wordBytes h0 ++ wordBytes h1 ++ wordBytes h2 ++ wordBytes h3 ++ wordBytes h4

/-- HMAC-SHA1 (RFC 2104, block size 64). -/
def hmacSha1 (key msg : List ℕ) : List ℕ :=
  let k0 := if 64 < key.length then sha1 key else key
  let k1 := k0 ++ List.replicate (64 - k0.length) 0
  sha1 ((k1.map (· ^^^ 0x5c)) ++ sha1 ((k1.map (· ^^^ 0x36)) ++ msg))

/-- The base64 alphabet. -/
def b64char (n : ℕ) : Char :=
  ("ABCDEFGHIJKLMNOPQRSTUVWXYZabcdefghijklmnopqrstuvwxyz0123456789+/").data.getD n 'A'

/-- Standard base64 with `=` padding, over 3-byte groups. -/
def b64chars : List ℕ → List Char
  | [] => []
  | [b0] =>
    [b64char (b0 >>> 2), b64char ((b0 % 4) <<< 4), '=', '=']
  | [b0, b1] =>
    [b64char (b0 >>> 2), b64char (((b0 % 4) <<< 4) ||| (b1 >>> 4)),
     b64char ((b1 % 16) <<< 2), '=']
  | b0 :: b1 :: b2 :: rest =>
    b64char (b0 >>> 2) :: b64char (((b0 % 4) <<< 4) ||| (b1 >>> 4)) ::
      b64char (((b1 % 16) <<< 2) ||| (b2 >>> 6)) :: b64char (b2 % 64) ::
      b64chars rest

/-- `base64.b64encode(...).decode('ascii')` as a string. -/
def b64encode (bytes : List ℕ) : String :=
  String.mk (b64chars bytes)

/-- Python `str.encode('ascii')`: the code points as bytes, failing
(`UnicodeEncodeError`) when any character is outside ASCII. -/
def asciiBytes (s : String) : Option (List ℕ) :=
  if s.data.all (fun c => c.toNat < 128) then some (s.data.map Char.toNat)
  else none

/-- Line 46: the f-string
`f"POST\n/v1/identify\n{key}\naudio\n1\n{str(int(timestamp))}"`, with the
truncated timestamp taken as the integer argument. -/
def stringToSign (accessKey : String) (timestampSeconds : ℤ) : String :=
  "POST\n/v1/identify\n" ++ accessKey ++ "\naudio\n1\n" ++
    toString timestampSeconds

/-- Line 47: the request signature — base64 of the HMAC-SHA1 of the
canonical string, keyed by the ASCII bytes of the secret.  `none` models the
`UnicodeEncodeError` on non-ASCII credentials. -/
def sign (accessKey accessSecret : String) (timestampSeconds : ℤ) :
    Option String :=
  match asciiBytes accessSecret, asciiBytes (stringToSign accessKey timestampSeconds) with
  | some key, some msg => some (b64encode (hmacSha1 key msg))
  | _, _ => none

/-- Join a list of strings with a separator between consecutive elements. -/
def joinSep (sep : String) : List String → String
  | [] => ""
  | [a] => a
  | a :: rest => a ++ sep ++ joinSep sep rest

/-- Modelled from the spec: the canonical string as §4.2 words it — the six
fields `POST`, `/v1/identify`, `accessKey`, `audio`, `1`,
stringified `timestampSeconds`, joined by newlines in that fixed order. -/
def canonicalString (accessKey : String) (timestampSeconds : ℤ) : String :=
  joinSep "\n"
    ["POST", "/v1/identify", accessKey, "audio", "1",
     toString timestampSeconds]

/-- Modelled from the spec: `sign` as §4.2 describes it, HMAC-SHA1 keyed by
the ASCII secret over the ASCII canonical string, base64-encoded. -/
def signSpec (accessKey accessSecret : String) (timestampSeconds : ℤ) :
    Option String :=
  match asciiBytes accessSecret, asciiBytes (canonicalString accessKey timestampSeconds) with
  | some key, some msg => some (b64encode (hmacSha1 key msg))
  | _, _ => none

/-! ## Scratch-file lifecycle (lines 23–24, 29–66, 132–136)

`identify_audio` names two scratch files (`temp_wav`, `temp_mp3`), runs the
pipeline in a `try`, removes both on the success path (lines 64–66), and the
`except` handler (lines 132–136) removes whichever still exists before
re-raising as a 500.  We model storage as the presence of the two names and
the body as a straight-line program in which at most one step raises; the
failure points enumerate every raise site of the source relative to its
file-creating effects. -/

/-- Presence of the two scratch files in local storage. -/
structure ScratchFS where
  wav : Bool
  mp3 : Bool
deriving Repr, DecidableEq, Fintype

/-- Where (if anywhere) the `try` body raises, relative to the two
file-creating effects.  `downloadNoFile` is `requests.get` /
`raise_for_status` failing before `open(temp_wav, 'wb')` ran;
`downloadMidCopy` is `shutil.copyfileobj` failing with the file already
created; `exportNoFile` / `exportMidWrite` likewise for the transcode at
line 41; `uploadRaise` covers `open`/`getsize`/`requests.post` at lines
49–61; `jsonRaise` is `json.loads` at line 62; `loopRaise` is an exception
inside the parsing loop (e.g. the artists `KeyError`), after the removes at
lines 65–66. -/
inductive FailPoint where
  | noFail
  | downloadNoFile
  | downloadMidCopy
  | decodeRaise
  | exportNoFile
  | exportMidWrite
  | uploadRaise
  | jsonRaise
  | loopRaise
deriving Repr, DecidableEq, Fintype

/-- The `try` body: final storage state plus whether an exception escaped to
the handler.  `os.remove` (lines 65–66) raises `FileNotFoundError` when its
target is absent, hence the two existence-dependent branches. -/
def runBody (fp : FailPoint) (fs0 : ScratchFS) : ScratchFS × Bool :=
  if fp = .downloadNoFile then (fs0, true)
  else if fp = .downloadMidCopy then ({ fs0 with wav := true }, true)
  else
    let fs1 : ScratchFS := { fs0 with wav := true }
    if fp = .decodeRaise then (fs1, true)
    else if fp = .exportNoFile then (fs1, true)
    else if fp = .exportMidWrite then ({ fs1 with mp3 := true }, true)
    else
      let fs2 : ScratchFS := { fs1 with mp3 := true }
      if fp = .uploadRaise then (fs2, true)
      else if fp = .jsonRaise then (fs2, true)
      else if fs2.wav = false then (fs2, true)
      else
        let fs3 : ScratchFS := { fs2 with wav := false }
        if fs3.mp3 = false then (fs3, true)
        else
          let fs4 : ScratchFS := { fs3 with mp3 := false }
          if fp = .loopRaise then (fs4, true) else (fs4, false)

/-- Lines 134–135: `if os.path.exists(f): os.remove(f)` for each scratch
file, in the `except` handler. -/
def exceptCleanup (fs : ScratchFS) : ScratchFS :=
  let fs1 := if fs.wav then { fs with wav := false } else fs
  if fs1.mp3 then { fs1 with mp3 := false } else fs1

/-- The whole request with respect to the two scratch files: run the body;
when it raised, run the handler's cleanup (the handler then re-raises as a
500, which changes no storage). -/
def identifyScratch (fp : FailPoint) (fs0 : ScratchFS) : ScratchFS :=
  let (fs, raised) := runBody fp fs0
  if raised then exceptCleanup fs else fs

/-! ## Concrete example inputs -/

/-- A raw match carrying only a score (every other key absent). -/
def scoredMatch (s : ℤ) : RawMatch :=
  { title := none, artists := [], score := some s,
    sample_begin_time_offset_ms := none, sample_end_time_offset_ms := none,
    duration_ms := none, release_date := none, label := none, acrid := none,
    external_ids := none, external_metadata := none }

/-- Upstream success response carrying candidates with scores 70 then 95,
in that upstream order. -/
def resp7095 : UpstreamResponse :=
  { status_code := some 0, music := [scoredMatch 70, scoredMatch 95],
    custom_files := [], humming := [] }

/-- The normalization of `scoredMatch 70` at total duration 10 ms. -/
def cm70 : CanonicalMatch :=
  { title := none, artist := "", type := "Remix/Sample",
    release_date := "Unknown", time_range := "[00:00 -> 00:00]",
    match_score := "70%", overlap_percentage := "0%", isrc := "N/A",
    label := "Unknown", spotify_id := none, deezer_id := none,
    youtube_id := none, acrid := none }

/-- The normalization of `scoredMatch 95` at total duration 10 ms. -/
def cm95 : CanonicalMatch :=
  { cm70 with type := "Exact Match", match_score := "95%" }

/-- A non-success upstream response (`status.code = 1001`) whose body still
carries a candidate — parsing must ignore it. -/
def resp1001 : UpstreamResponse :=
  { status_code := some 1001, music := [scoredMatch 95],
    custom_files := [], humming := [] }

/-- A success response with zero candidates in all three categories. -/
def respEmpty : UpstreamResponse :=
  { status_code := some 0, music := [], custom_files := [], humming := [] }

/-- A raw match whose sample-end offset precedes its sample-begin offset. -/
def endBeforeStart : RawMatch :=
  { scoredMatch 80 with
    sample_begin_time_offset_ms := some 5000
    sample_end_time_offset_ms := some 1000 }

/-- Scenario A's raw match: score 95, sample offsets 10000 → 20000 ms. -/
def scenarioA : RawMatch :=
  { scoredMatch 95 with
    sample_begin_time_offset_ms := some 10000
    sample_end_time_offset_ms := some 20000
    acrid := some "acr-1"
    artists := [{ name := some "X" }, { name := some "Y" }] }

/-- The normalization of `scenarioA` at total duration 100000 ms. -/
def cmA : CanonicalMatch :=
  { title := none, artist := "X, Y", type := "Exact Match",
    release_date := "Unknown", time_range := "[00:10 -> 00:20]",
    match_score := "95%", overlap_percentage := "10%", isrc := "N/A",
    label := "Unknown", spotify_id := none, deezer_id := none,
    youtube_id := none, acrid := some "acr-1" }

/-- A match with no sample-end offset: `end_ms` falls back to
`start_ms + duration_ms`. -/
def absentEnd : RawMatch :=
  { scoredMatch 50 with
    sample_begin_time_offset_ms := some 3000
    duration_ms := some 2000 }

/-- A raw match with no `score` key at all. -/
def noScoreMatch : RawMatch :=
  { scoredMatch 0 with score := none }

/-- The normalization of `noScoreMatch` at total duration 10 ms. -/
def cmNoScore : CanonicalMatch :=
  { cm70 with type := "Low Confidence", match_score := "0%" }

/-- A match whose second artist entry lacks the `name` key. -/
def badArtistMatch : RawMatch :=
  { scoredMatch 80 with
    artists := [{ name := some "A" }, { name := none }] }

/-- A success response containing `badArtistMatch` among its candidates. -/
def respBadArtist : UpstreamResponse :=
  { status_code := some 0, music := [scoredMatch 95, badArtistMatch],
    custom_files := [], humming := [] }

/-! ## Helper lemmas -/

/-- The accumulator loop is the element-wise normalization with the
accumulator prepended. -/
theorem matchLoop_eq_normalizeAll (total : ℕ) (ms : List RawMatch) :
    ∀ acc, matchLoop total acc ms =
      (normalizeAll total ms).map (acc ++ ·) := by
  induction ms with
  | nil => intro acc; simp [matchLoop, normalizeAll, Except.map]
  | cons m rest ih =>
    intro acc
    cases h : normalizeMatch total m with
    | error e => simp [matchLoop, normalizeAll, h, Except.map]
    | ok c =>
      cases h2 : normalizeAll total rest with
      | error e => simp [matchLoop, normalizeAll, h, h2, ih, Except.map]
      | ok cs => simp [matchLoop, normalizeAll, h, h2, ih, Except.map]

/-- An artist entry with no `name` key makes the comprehension fail with
`KeyError('name')`, whose message is `"'name'"`. -/
theorem collectNames_err (artists : List RawArtist) (a : RawArtist)
    (ha : a ∈ artists) (hn : a.name = none) :
    collectNames artists = .error "'name'" := by
  induction artists with
  | nil => cases ha
  | cons b rest ih =>
    cases hb : b.name with
    | none => simp [collectNames, hb]
    | some n =>
      have hmem : a ∈ rest := by
        cases ha with
        | head => rw [hb] at hn; cases hn
        | tail _ h => exact h
      simp [collectNames, hb, ih hmem]

/-- `collectNames` fails only with the `KeyError('name')` message. -/
theorem collectNames_err_is_name (artists : List RawArtist) :
    ∀ e, collectNames artists = .error e → e = "'name'" := by
  induction artists with
  | nil => intro e h; simp [collectNames] at h
  | cons b rest ih =>
    intro e h
    simp only [collectNames] at h
    cases hb : b.name with
    | none =>
      rw [hb] at h
      exact (Except.error.inj h).symm
    | some n =>
      rw [hb] at h
      cases h2 : collectNames rest with
      | error e2 =>
        simp only [h2] at h
        rw [← Except.error.inj h]
        exact ih e2 h2
      | ok ns => simp only [h2] at h; cases h

/-- A candidate containing a nameless artist entry fails to normalize, with
the `KeyError` message. -/
theorem normalizeMatch_badName (total : ℕ) (m : RawMatch) (a : RawArtist)
    (ha : a ∈ m.artists) (hn : a.name = none) :
    normalizeMatch total m = .error "'name'" := by
  simp only [normalizeMatch, artistField, collectNames_err m.artists a ha hn]

/-- `normalizeMatch` fails only with the `KeyError('name')` message. -/
theorem normalizeMatch_err_is_name (total : ℕ) (m : RawMatch) (e : String)
    (h : normalizeMatch total m = .error e) : e = "'name'" := by
  simp only [normalizeMatch, artistField] at h
  cases h2 : collectNames m.artists with
  | error e2 =>
    simp only [h2] at h
    rw [← Except.error.inj h]
    exact collectNames_err_is_name m.artists e2 h2
  | ok ns => simp only [h2] at h; cases h

/-- If one candidate of the list fails to normalize, the whole loop fails
with the `KeyError` message, whatever the accumulator. -/
theorem matchLoop_err (total : ℕ) (ms : List RawMatch) (m : RawMatch)
    (hm : m ∈ ms) (herr : normalizeMatch total m = .error "'name'") :
    ∀ acc, matchLoop total acc ms = .error "'name'" := by
  induction ms with
  | nil => cases hm
  | cons b rest ih =>
    intro acc
    cases hb : normalizeMatch total b with
    | error e =>
      have he := normalizeMatch_err_is_name total b e hb
      simp [matchLoop, hb, he]
    | ok c =>
      have hmem : m ∈ rest := by
        cases hm with
        | head => rw [hb] at herr; cases herr
        | tail _ h => exact h
      simp [matchLoop, hb, ih hmem]

/-- The fields of a successfully normalized candidate, read off the record
built at lines 111–127. -/
theorem normalizeMatch_ok_fields (total : ℕ) (m : RawMatch)
    (c : CanonicalMatch) (h : normalizeMatch total m = .ok c) :
    c.type = matchType (m.score.getD 0) ∧
    c.time_range = "[" ++ format_ms (some (startMs m)) ++ " -> " ++
      format_ms (some (endMs m)) ++ "]" ∧
    c.acrid = m.acrid ∧
    c.match_score = toString (m.score.getD 0) ++ "%" ∧
    c.overlap_percentage =
      toString (overlapPct total (endMs m - startMs m)) ++ "%" := by
  simp only [normalizeMatch] at h
  cases haf : artistField m.artists with
  | error e => rw [haf] at h; cases h
  | ok art =>
    rw [haf] at h
    injection h with h2
    subst h2
    exact ⟨rfl, rfl, rfl, rfl, rfl⟩

/-- Dividing a non-negative integer by a non-negative integer yields a
non-negative double. -/
theorem floatDiv_neg_eq_false (a b : ℤ) (ha : 0 ≤ a) (hb : 0 ≤ b) :
    (floatDiv a b).neg = false := by
  unfold floatDiv
  by_cases hab : a = 0 ∨ b = 0
  · rw [if_pos hab]
  · rw [if_neg hab]
    simp [decide_eq_false (not_lt.2 ha), decide_eq_false (not_lt.2 hb)]

/-- Multiplying by 100 keeps a double's sign flag. -/
theorem floatMul100_neg_eq (x : F64) : (floatMul100 x).neg = x.neg := by
  simp only [floatMul100]
  split <;> rfl

/-- The ceiling of a non-negative double is non-negative. -/
theorem F64_ceil_nonneg (x : F64) (h : x.neg = false) : 0 ≤ x.ceil := by
  unfold F64.ceil
  rw [h]
  split
  · rw [if_neg (show ¬(false = true) by decide)]
    positivity
  · rw [if_neg (show ¬(false = true) by decide)]
    exact Int.natCast_nonneg _

/-- A non-negative match duration yields a non-negative overlap
percentage. -/
theorem overlapPct_nonneg (total : ℕ) (md : ℤ) (h : 0 ≤ md) :
    0 ≤ overlapPct total md := by
  unfold overlapPct
  split
  · apply F64_ceil_nonneg
    rw [floatMul100_neg_eq]
    exact floatDiv_neg_eq_false md total h (Int.natCast_nonneg total)
  · exact le_refl 0

/-- The code's f-string equals the spec's newline-joined field list. -/
theorem stringToSign_eq_canonical (k : String) (t : ℤ) :
    stringToSign k t = canonicalString k t := by
  simp only [stringToSign, canonicalString, joinSep]
  simp only [String.append_assoc]
  rfl

/-! ## Claim theorems -/

/-- C1 (counterexample): an upstream success response whose two candidates
arrive with scores 70 then 95 is returned in that same order, `[70%, 95%]`,
not re-sorted to `[95%, 70%]` as the claim states. -/
theorem c1_not_sorted :
    (parseResponse resp7095 10).map
      (fun r => r.data.map CanonicalMatch.match_score) = .ok ["70%", "95%"] ∧
    (["70%", "95%"] : List String) ≠ ["95%", "70%"] := by decide

/-- C1 (amended): for every successful identification, the returned data
list is exactly the element-wise normalization of the category-concatenated
candidate list (music, then custom files, then humming, each in upstream
order) — the concatenation order is preserved and no reordering by
`match_score` takes place. -/
theorem c1_order_preserved (resp : UpstreamResponse) (total : ℕ)
    (r : IdentificationResult) (h0 : resp.status_code = some 0)
    (h : parseResponse resp total = .ok r) :
    normalizeAll total (allHits resp) = .ok r.data := by
  have hl := matchLoop_eq_normalizeAll total (allHits resp) []
  simp only [parseResponse, if_pos h0] at h
  cases hn : normalizeAll total (allHits resp) with
  | error e =>
    rw [hn] at hl
    simp only [Except.map] at hl
    rw [hl] at h
    cases h
  | ok cs =>
    rw [hn] at hl
    simp only [Except.map, List.nil_append] at hl
    rw [hl] at h
    injection h with h2
    subst h2
    rfl

/-- C1 (witness): with the concrete scores-70-then-95 response, the
element-wise normalization at total duration 10 ms is the returned list. -/
theorem c1_order_witness :
    normalizeAll 10 (allHits resp7095) = .ok [cm70, cm95] :=
  c1_order_preserved resp7095 10 ⟨"matched", [cm70, cm95]⟩ (by decide)
    (by decide)

/-- C2: the result status is `"matched"` iff the upstream status code is the
success sentinel `0`; any other code yields `"no_match"` with an empty data
list (never an error, whatever the rest of the body), and a success code
with zero candidates still reports `"matched"`. -/
theorem c2_matched_iff_code_zero (resp : UpstreamResponse) (total : ℕ) :
    (resp.status_code ≠ some 0 →
      parseResponse resp total = .ok ⟨"no_match", []⟩) ∧
    (∀ r, parseResponse resp total = .ok r →
      (r.status = "matched" ↔ resp.status_code = some 0)) ∧
    (resp.status_code = some 0 → allHits resp = [] →
      parseResponse resp total = .ok ⟨"matched", []⟩) := by
  refine ⟨?_, ?_, ?_⟩
  · intro h
    simp [parseResponse, h]
  · intro r hr
    by_cases h : resp.status_code = some 0
    · simp only [parseResponse, if_pos h] at hr
      cases hl : matchLoop total [] (allHits resp) with
      | error e => rw [hl] at hr; cases hr
      | ok ms =>
        rw [hl] at hr
        injection hr with h2
        subst h2
        simpa using h
    · simp only [parseResponse, if_neg h] at hr
      injection hr with h2
      subst h2
      constructor
      · intro hs; exact absurd hs (by decide)
      · intro hc; exact absurd hc h
  · intro h0 hempty
    simp [parseResponse, h0, hempty, matchLoop]

/-- C2 (witness): a non-success code (1001) with a non-empty body yields
`no_match` with no data; a success code with zero candidates yields
`matched` with no data. -/
theorem c2_witness :
    parseResponse resp1001 5 = .ok ⟨"no_match", []⟩ ∧
    parseResponse respEmpty 5 = .ok ⟨"matched", []⟩ :=
  ⟨(c2_matched_iff_code_zero resp1001 5).1 (by decide),
   (c2_matched_iff_code_zero respEmpty 5).2.2 (by decide) (by decide)⟩

/-- C3: at `match_duration = 11000` ms and `totalDurationMs = 20000` ms the
code's binary64 evaluation `math.ceil((11000/20000)*100)` yields 56, while
the specified exact `ceiling(100 * 11000 / 20000)` is 55 — the float
rounding crosses the integer boundary, so the code does not implement the
exact ceiling the claim states. -/
theorem c3_overlap_rounding_bug :
    overlapPct 20000 11000 = 56 ∧ overlapPctExact 20000 11000 = 55 ∧
    overlapPct 10000 0 = 0 ∧ overlapPct 0 12345 = 0 := by decide

/-- C4: score classification — `"Exact Match"` on `[90, 100]`,
`"Remix/Sample"` on `[40, 89]`, `"Low Confidence"` on `[0, 39]`, boundaries
90 and 40 inclusive to the higher band; a missing score is treated as 0 and
classified `"Low Confidence"`; and the normalized record's `type` field is
exactly this classification of its defaulted score. -/
theorem c4_classification (s : ℤ) (total : ℕ) (m : RawMatch) :
    (90 ≤ s ∧ s ≤ 100 → matchType s = "Exact Match") ∧
    (40 ≤ s ∧ s ≤ 89 → matchType s = "Remix/Sample") ∧
    (0 ≤ s ∧ s ≤ 39 → matchType s = "Low Confidence") ∧
    (∀ c, m.score = none → normalizeMatch total m = .ok c →
      c.type = "Low Confidence") ∧
    (∀ c, normalizeMatch total m = .ok c →
      c.type = matchType (m.score.getD 0)) := by
  have hgen : ∀ c, normalizeMatch total m = .ok c →
      c.type = matchType (m.score.getD 0) :=
    fun c hok => (normalizeMatch_ok_fields total m c hok).1
  refine ⟨?_, ?_, ?_, ?_, hgen⟩
  · intro ⟨h1, _⟩
    unfold matchType
    rw [if_pos h1]
  · intro ⟨h1, h2⟩
    unfold matchType
    rw [if_neg (by omega), if_pos h1]
  · intro ⟨_, h2⟩
    unfold matchType
    rw [if_neg (by omega), if_neg (by omega)]
  · intro c hnone hok
    rw [hgen c hok, hnone]
    rfl

/-- C4 (witness): the classification at the boundary scores and at a
missing score, on concrete inputs. -/
theorem c4_witness :
    matchType 90 = "Exact Match" ∧ matchType 100 = "Exact Match" ∧
    matchType 40 = "Remix/Sample" ∧ matchType 89 = "Remix/Sample" ∧
    matchType 0 = "Low Confidence" ∧ matchType 39 = "Low Confidence" ∧
    cmNoScore.type = "Low Confidence" :=
  ⟨(c4_classification 90 10 noScoreMatch).1 (by decide),
   (c4_classification 100 10 noScoreMatch).1 (by decide),
   (c4_classification 40 10 noScoreMatch).2.1 (by decide),
   (c4_classification 89 10 noScoreMatch).2.1 (by decide),
   (c4_classification 0 10 noScoreMatch).2.2.1 (by decide),
   (c4_classification 39 10 noScoreMatch).2.2.1 (by decide),
   (c4_classification 0 10 noScoreMatch).2.2.2.1 cmNoScore rfl (by decide)⟩

/-- C5: the request signature is the base64 HMAC-SHA1, keyed by the ASCII
bytes of the secret, of the newline-joined canonical string
`POST / /v1/identify / accessKey / audio / 1 / timestamp` in that fixed
order: the code's f-string construction coincides with the spec's field
list, and the whole is a pure function of the three inputs. -/
theorem c5_signature_canonical (accessKey accessSecret : String) (t : ℤ) :
    sign accessKey accessSecret t = signSpec accessKey accessSecret t := by
  unfold sign signSpec
  rw [stringToSign_eq_canonical]

/-- C6 (counterexample): a candidate whose sample-end offset (1000 ms)
precedes its sample-begin offset (5000 ms) gets `end_ms < start_ms`, a
negative `match_duration`, and a negative overlap percentage — the claimed
invariant fails when the end offset is present but smaller. -/
theorem c6_end_before_start :
    endMs endBeforeStart < startMs endBeforeStart ∧
    endMs endBeforeStart - startMs endBeforeStart = -4000 ∧
    overlapPct 10000 (endMs endBeforeStart - startMs endBeforeStart) = -40 := by
  decide

/-- C6 (amended): when the sample-end offset is absent, `end_ms` is
`start_ms + duration_ms` and is never before `start_ms` provided the
duration is non-negative; when the offset is present it is used verbatim
and may precede `start_ms`.  Whenever `match_duration` is non-negative,
the overlap percentage is a non-negative integer. -/
theorem c6_invariant (m : RawMatch) (total : ℕ) (md : ℤ) :
    (m.sample_end_time_offset_ms = none → 0 ≤ m.duration_ms.getD 0 →
      startMs m ≤ endMs m) ∧
    (0 ≤ md → 0 ≤ overlapPct total md) := by
  constructor
  · intro hnone hdur
    unfold endMs
    rw [hnone]
    simpa using hdur
  · exact overlapPct_nonneg total md

/-- C6 (witness): with an absent end offset and duration 2000 the end is
after the start, and a concrete non-negative duration has non-negative
overlap. -/
theorem c6_witness :
    startMs absentEnd ≤ endMs absentEnd ∧ 0 ≤ overlapPct 10000 5000 :=
  ⟨(c6_invariant absentEnd 10000 5000).1 rfl (by decide),
   (c6_invariant absentEnd 10000 5000).2 (by decide)⟩

/-- C7: for every failure point of the request body (or none) and every
initial storage state, both scratch files are absent from storage when the
request ends — the success path removes them at lines 65–66 and the
`except` handler removes whichever still exists. -/
theorem c7_scratch_cleanup :
    ∀ (fp : FailPoint) (fs0 : ScratchFS),
      (identifyScratch fp fs0).wav = false ∧
      (identifyScratch fp fs0).mp3 = false := by decide

/-- C8: `format_ms` maps `None` and `0` to `"00:00"` and `90000` to
`"01:30"`, and the normalized record's `time_range` field is exactly
`"[" ++ format_ms start ++ " -> " ++ format_ms end ++ "]"`. -/
theorem c8_format_ms (total : ℕ) (m : RawMatch) :
    format_ms none = "00:00" ∧ format_ms (some 0) = "00:00" ∧
    format_ms (some 90000) = "01:30" ∧
    (∀ c, normalizeMatch total m = .ok c → startMs m ≤ endMs m →
      c.time_range = "[" ++ format_ms (some (startMs m)) ++ " -> " ++
        format_ms (some (endMs m)) ++ "]") :=
  ⟨by decide, by decide, by decide,
   fun c hok _ => (normalizeMatch_ok_fields total m c hok).2.1⟩

/-- C8 (witness): the scenario-A candidate (offsets 10000 → 20000 ms)
renders its time range from `format_ms` of its two offsets. -/
theorem c8_witness :
    cmA.time_range = "[" ++ format_ms (some (startMs scenarioA)) ++ " -> " ++
      format_ms (some (endMs scenarioA)) ++ "]" :=
  (c8_format_ms 100000 scenarioA).2.2.2 cmA (by decide) (by decide)

/-- C9: if any artist entry of any candidate of a success response lacks the
`name` key, the whole request aborts: parsing yields the `KeyError('name')`
exception, surfaced as a 500 error carrying the cause string `"'name'"`. -/
theorem c9_missing_name_aborts (resp : UpstreamResponse) (total : ℕ)
    (m : RawMatch) (a : RawArtist) (h0 : resp.status_code = some 0)
    (hm : m ∈ allHits resp) (ha : a ∈ m.artists) (hn : a.name = none) :
    parseResponse resp total = .error "'name'" ∧
    httpStatus (parseResponse resp total) = 500 ∧
    httpDetail (parseResponse resp total) = some "'name'" := by
  have herr := normalizeMatch_badName total m a ha hn
  have hloop := matchLoop_err total (allHits resp) m hm herr []
  have hp : parseResponse resp total = .error "'name'" := by
    simp [parseResponse, h0, hloop]
  exact ⟨hp, by rw [hp]; rfl, by rw [hp]; rfl⟩

/-- C9 (witness): the concrete response whose second music candidate has a
nameless artist entry aborts with the 500 `"'name'"` error. -/
theorem c9_witness :
    parseResponse respBadArtist 10 = .error "'name'" ∧
    httpStatus (parseResponse respBadArtist 10) = 500 ∧
    httpDetail (parseResponse respBadArtist 10) = some "'name'" :=
  c9_missing_name_aborts respBadArtist 10 badArtistMatch ⟨none⟩ (by decide)
    (by decide) (by decide) rfl

/-- C10: the record the code builds carries an `acrid` key, copied verbatim
from the raw match (absent ↦ null), and that key is not part of the
CanonicalMatch schema the spec enumerates. -/
theorem c10_acrid_extra_field (total : ℕ) (m : RawMatch) :
    "acrid" ∈ codeMatchFields ∧ "acrid" ∉ specMatchFields ∧
    (∀ c, normalizeMatch total m = .ok c → c.acrid = m.acrid) := by
  refine ⟨by decide, by decide, fun c hok => ?_⟩
  exact (normalizeMatch_ok_fields total m c hok).2.2.1

/-- C10 (witness): the scenario-A candidate's `acrid` value survives into
its normalized record. -/
theorem c10_witness : cmA.acrid = scenarioA.acrid :=
  (c10_acrid_extra_field 100000 scenarioA).2.2 cmA (by decide)

end AudioDetect
